import Mathlib


/-!
Shallow embedding of `src/training/trainer.py` (functions `check_data_types`,
`check_for_nan_inf`, `evaluate_model`, `train_model`) and proofs about it.

Modelling conventions:
* pandas/numpy cell values are modelled by `PValue`: a rational number, NaN,
  or a signed infinity.  Exact rational arithmetic stands in for float64
  arithmetic; rounding is abstracted away.
* A pandas column carries a dtype tag (`Dtype`) and its values.  Cell contents
  of non-numeric columns are irrelevant to every code path modelled here
  (conversion to a tensor fails on the dtype alone), so cells are always
  `PValue`s.  Column names only feed log messages and are omitted.
* Python exceptions are modelled by `Except Err`.  The source raises
  `ValueError` at several distinct sites; `Err` distinguishes the sites,
  matching the error taxonomy used by the specification (`DataTypeError`,
  `DataIntegrityError`, `NumericalInstabilityError`, ...).
* PyTorch tensors are mutable objects.  The model's trainable parameters live
  in a `Store` (address -> value); `Module.state_dict()` returns *references*
  to the parameter tensors, not copies (documented PyTorch behaviour), which
  the embedding models by `state_dict` being the parameters' address.
* The external numerical library (forward pass under autograd, MSE criterion,
  Adam update) is abstracted by the fields of `Run` and `Model`; the
  orchestration logic of `trainer.py` is translated literally.
-/

/-- A float64 cell value: a finite rational, NaN, or a signed infinity. -/
inductive PValue where
  | num (q : ℚ)
  | nan
  | posInf
  | negInf
deriving DecidableEq, Repr

/-- `pd.isnull` detects NaN (missing) values. -/
def PValue.isNan : PValue → Bool
  | .nan => true
  | _ => false

/-- `np.isfinite`: true exactly on finite numbers (false on NaN and ±inf). -/
def PValue.isFiniteV : PValue → Bool
  | .num _ => true
  | _ => false

/-- pandas column dtypes that occur in this data model. -/
inductive Dtype where
  | float64
  | int64
  | boolean
  | object_
  | category
  | datetime64
deriving DecidableEq, Repr

/-- The dtype test performed by `check_data_types`: `dtype == "object"`. -/
def Dtype.isObject : Dtype → Bool
  | .object_ => true
  | _ => false

/-- Numeric dtypes (the dtypes `torch.FloatTensor` accepts and that pandas
counts as numeric): float64, int64, bool.  `category` and `datetime64` are
non-numeric. -/
def Dtype.isNumeric : Dtype → Bool
  | .float64 => true
  | .int64 => true
  | .boolean => true
  | _ => false

/-- One column of a pandas DataFrame: a dtype tag and the cell values. -/
structure Column where
  dtype : Dtype
  vals : List PValue
deriving DecidableEq, Repr

/-- A pandas DataFrame: the feature table. -/
structure DataFrame where
  cols : List Column
deriving DecidableEq, Repr

/-- A pandas Series: the target column. -/
structure Series where
  dtype : Dtype
  vals : List PValue
deriving DecidableEq, Repr

/-- The error taxonomy.  Every constructor corresponds to one raise site of
the source (all of them `ValueError` in Python except `undefinedBestState`,
which is Python's `NameError` on the unassigned `best_model_state`, and
`torchTypeError` / `sklearnError` / `zeroDivision`, raised inside the
delegated libraries).  `numericalInstability` records, as instrumentation,
the parameter value and the optimizer-step count at the moment of the raise. -/
inductive Err where
  | dataTypeError
  | dataIntegrityError
  | numericalInstability (params : ℚ) (steps : ℕ)
  | torchTypeError
  | sklearnError
  | zeroDivision
  | undefinedBestState
deriving DecidableEq, Repr

/-- `check_data_types(X, y)` from trainer.py lines 12-28: raises for each
feature column whose dtype is `object`, then for an `object`-dtype target. -/
def check_data_types (X : DataFrame) (y : Series) : Except Err Unit :=
  if X.cols.any (fun c => c.dtype.isObject) then .error .dataTypeError
  else if y.dtype.isObject then .error .dataTypeError
  else .ok ()

/-- `X.isnull().values.any()` for the feature table. -/
def DataFrame.hasNull (X : DataFrame) : Bool :=
  X.cols.any (fun c => c.vals.any PValue.isNan)

/-- `y.isnull().values.any()` for the target column. -/
def Series.hasNull (y : Series) : Bool :=
  y.vals.any PValue.isNan

/-- `np.isfinite(X.values).all()` for the feature table. -/
def DataFrame.allFinite (X : DataFrame) : Bool :=
  X.cols.all (fun c => c.vals.all PValue.isFiniteV)

/-- `np.isfinite(y.values).all()` for the target column. -/
def Series.allFinite (y : Series) : Bool :=
  y.vals.all PValue.isFiniteV

/-- `check_for_nan_inf(X, y)` from trainer.py lines 31-40: raise on any NaN,
then raise on any non-finite value. -/
def check_for_nan_inf (X : DataFrame) (y : Series) : Except Err Unit :=
  if X.hasNull || y.hasNull then .error .dataIntegrityError
  else if !X.allFinite || !y.allFinite then .error .dataIntegrityError
  else .ok ()

/-- Some value of the table (features or target) is NaN or infinite. -/
def hasNanInfData (X : DataFrame) (y : Series) : Bool :=
  X.cols.any (fun c => c.vals.any (fun v => !v.isFiniteV))
    || y.vals.any (fun v => !v.isFiniteV)

/-! ### Tensors, the model, and the evaluator -/

/-- The converted feature tensor.  Its layout is immaterial here because the
model's forward pass is abstract; we keep the columns' value lists. -/
abbrev FMat := List (List PValue)

/-- `torch.FloatTensor(X.values)`: succeeds exactly when every column has a
numeric dtype (float/int/bool); `object`, `category` and `datetime` data make
the constructor raise. -/
def toMatrix (X : DataFrame) : Option FMat :=
  if X.cols.all (fun c => c.dtype.isNumeric) then some (X.cols.map Column.vals)
  else none

/-- `torch.FloatTensor(y.values)` for the target column. -/
def toVec (y : Series) : Option (List PValue) :=
  if y.dtype.isNumeric then some y.vals else none

/-- The externally supplied model.  `fwd training params input` is
`model(input).view(-1)`: the forward pass in the given training mode,
already flattened to one dimension.  `params` is the current content of
the trainable parameters (abstracted to one rational). -/
structure Model where
  fwd : Bool → ℚ → FMat → List PValue

/-- Mutable tensor storage.  The single model's trainable parameters live at
address `paramAddr`; nothing in trainer.py allocates a copy of them. -/
structure Store where
  mem : ℕ → ℚ

/-- Address of the model's parameter tensors. -/
def paramAddr : ℕ := 0

/-- Current values of the model's trainable parameters. -/
def getParams (s : Store) : ℚ := s.mem paramAddr

/-- In-place mutation of the parameter tensors (what `optimizer.step()` and
`load_state_dict` do to the underlying storage). -/
def setParams (s : Store) (q : ℚ) : Store :=
  ⟨fun a => if a = paramAddr then q else s.mem a⟩

/-- `model.state_dict()`: an ordered dict of *references* to the parameter
tensors — not copies (documented PyTorch behaviour; a snapshot would need
`copy.deepcopy`).  For this single model it is the parameters' address. -/
def state_dict : ℕ := paramAddr

/-- `model.load_state_dict(sd)`: copy the values found at the dict's
references into the parameter tensors. -/
def load_state_dict (s : Store) (sd : ℕ) : Store :=
  setParams s (s.mem sd)

/-- `check_array` validation performed by sklearn's metric functions:
reject NaN/inf values, inconsistent lengths, and empty arrays. -/
def sklearnArraysOk (ytrue ypred : List PValue) : Bool :=
  ytrue.all PValue.isFiniteV && ypred.all PValue.isFiniteV
    && ytrue.length == ypred.length && decide (0 < ytrue.length)

/-- Extract the rational values of an all-finite list (0 is junk for the
non-finite constructors, which the callers exclude via `sklearnArraysOk`). -/
def toRats (l : List PValue) : List ℚ :=
  l.map (fun v => match v with | .num q => q | _ => 0)

/-- `sklearn.metrics.mean_squared_error`. -/
def mean_squared_error (ytrue ypred : List PValue) : Except Err ℚ :=
  if sklearnArraysOk ytrue ypred then
    .ok ((((toRats ytrue).zip (toRats ypred)).map (fun p => (p.1 - p.2) ^ 2)).sum
          / (ytrue.length : ℚ))
  else .error .sklearnError

/-- `sklearn.metrics.r2_score`, including its convention for a constant
`y_true` (0 unless the fit is perfect, then 1). -/
def r2_score (ytrue ypred : List PValue) : Except Err ℚ :=
  if sklearnArraysOk ytrue ypred then
    let yr := toRats ytrue
    let pr := toRats ypred
    let ybar := yr.sum / (yr.length : ℚ)
    let ssRes := ((yr.zip pr).map (fun p => (p.1 - p.2) ^ 2)).sum
    let ssTot := (yr.map (fun a => (a - ybar) ^ 2)).sum
    .ok (if ssTot == 0 then (if ssRes == 0 then 1 else 0) else 1 - ssRes / ssTot)
  else .error .sklearnError

/-- The metric computation of `evaluate_model` (trainer.py lines 59-63):
convert the validation pair to tensors, run the forward pass in eval mode on
the current parameter values, and compute MSE and R².  RMSE is `√MSE` and is
added by `evaluate_model` below. -/
def evalMetrics (m : Model) (p : ℚ) (Xv : DataFrame) (yv : Series) :
    Except Err (ℚ × ℚ) :=
  match toMatrix Xv with
  | none => .error .torchTypeError
  | some mat =>
    match toVec yv with
    | none => .error .torchTypeError
    | some yvec =>
      let preds := m.fwd false p mat
      match mean_squared_error yvec preds with
      | .error e => .error e
      | .ok mse =>
        match r2_score yvec preds with
        | .error e => .error e
        | .ok r2 => .ok (mse, r2)

/-- `evaluate_model(model, X_val, y_val, device)` without the RMSE field
(kept separate so that the training loop, which consumes only the MSE,
stays executable; `evaluate_model` below adds `rmse = √mse`).

Takes and returns the tensor store and the model's training-mode flag:
device resolution and `model.to(device)` change no parameter values; the
tensor conversions happen before `model.eval()` (so a conversion failure
leaves the flag untouched); the forward pass runs under `torch.no_grad()`
and writes nothing. -/
def evaluate_core (m : Model) (s : Store) (flag : Bool) (Xv : DataFrame)
    (yv : Series) : Store × Bool × Except Err (ℚ × ℚ) :=
  match toMatrix Xv with
  | none => (s, flag, .error .torchTypeError)
  | some _ =>
    match toVec yv with
    | none => (s, flag, .error .torchTypeError)
    | some _ => (s, false, evalMetrics m (getParams s) Xv yv)

/-- `evaluate_model` as in the source: returns the `(mse, rmse, r2)` triple,
with `rmse = np.sqrt(mse)`, together with the (unchanged) parameter store and
the training-mode flag after the call. -/
noncomputable def evaluate_model (m : Model) (s : Store) (flag : Bool)
    (Xv : DataFrame) (yv : Series) : Store × Bool × Except Err (ℚ × ℝ × ℚ) :=
  let r := evaluate_core m s flag Xv yv
  (r.1, r.2.1, r.2.2.map (fun t => (t.1, Real.sqrt (t.1 : ℝ), t.2)))

/-- MSE component of an evaluator result (0 if the call raised). -/
def mseOf (r : Except Err (ℚ × ℝ × ℚ)) : ℚ :=
  match r with
  | .ok t => t.1
  | .error _ => 0

/-- RMSE component of an evaluator result (0 if the call raised). -/
noncomputable def rmseOf (r : Except Err (ℚ × ℝ × ℚ)) : ℝ :=
  match r with
  | .ok t => t.2.1
  | .error _ => 0

/-! ### The training loop -/

/-- One run's delegated numerical components, abstracted at the library
boundary.  Mini-batches are opaque tokens (they stand for the shuffled
`(batch_X, batch_y)` pairs the `DataLoader` yields, whose content never
matters to the orchestration logic):
* `batches e` — the mini-batch sequence the shuffled `DataLoader` yields in
  epoch `e`;
* `lossF p b` — the value of `criterion(model(batch_X).view(-1), batch_y)`
  when the parameters hold `p` (a float: possibly NaN or infinite);
* `stepF p b` — the parameter content after `loss.backward()` and
  `optimizer.step()` (the Adam update) for that batch. -/
structure Run where
  batches : ℕ → List ℕ
  lossF : ℚ → ℕ → PValue
  stepF : ℚ → ℕ → ℚ

/-- The inner mini-batch loop of `train_model` (trainer.py lines 123-133).
For each batch: zero gradients, forward pass, compute the loss; raise if the
loss is NaN or infinite (the error records the parameters and the
optimizer-step count at the raise); otherwise backpropagate, apply the
optimizer step, and accumulate the loss.  Returns the parameter content, the
accumulated `total_loss`, and the step count. -/
def runBatches (run : Run) (params totalLoss : ℚ) (steps : ℕ) :
    List ℕ → Except (ℚ × ℕ) (ℚ × ℚ × ℕ)
  | [] => .ok (params, totalLoss, steps)
  | b :: bs =>
    match run.lossF params b with
    | .num l => runBatches run (run.stepF params b) (totalLoss + l) (steps + 1) bs
    | _ => .error (params, steps)

/-- State threaded through the epoch loop: the tensor store, the model's
training-mode flag, `best_val_loss` (`none` is the initial `float("inf")`),
`epochs_no_improve`, the possibly-unassigned `best_model_state`, plus two
instrumentation counters (optimizer steps taken, epochs that completed their
early-stopping bookkeeping). -/
structure LoopSt where
  store : Store
  flag : Bool
  bestVal : Option ℚ
  noImprove : ℕ
  bestSD : Option ℕ
  steps : ℕ
  epochsRun : ℕ

/-- `val_mse < best_val_loss`, where the initial best is `float("inf")`. -/
def ltBest (v : ℚ) : Option ℚ → Bool
  | none => true
  | some b => decide (v < b)

/-- The epoch loop of `train_model` (trainer.py lines 120-160), by recursion
on the remaining epoch count.  Each iteration: `model.train()`, the
mini-batch loop, `avg_loss = total_loss / len(train_loader)` (ZeroDivisionError
on an empty loader), the per-epoch `evaluate_model` call, the early-stopping
bookkeeping, and `break` once `epochs_no_improve >= patience`.  Returns the
final state, the list of argument pairs passed to the evaluator, and the
exception that aborted the loop, if any. -/
def trainLoop (m : Model) (run : Run) (Xv : DataFrame) (yv : Series)
    (patience : ℕ) (e : ℕ) (remaining : ℕ) (st : LoopSt)
    (calls : List (DataFrame × Series)) :
    LoopSt × List (DataFrame × Series) × Option Err :=
  match remaining with
  | 0 => (st, calls, none)
  | r + 1 =>
    let st1 : LoopSt := { st with flag := true }
    match runBatches run (getParams st1.store) 0 st1.steps (run.batches e) with
    | .error pe =>
      ({ st1 with store := setParams st1.store pe.1, steps := pe.2 },
       calls, some (.numericalInstability pe.1 pe.2))
    | .ok pts =>
      let st2 : LoopSt := { st1 with store := setParams st1.store pts.1,
                                     steps := pts.2.2 }
      if (run.batches e).length = 0 then (st2, calls, some .zeroDivision)
      else
        let calls1 := calls ++ [(Xv, yv)]
        let ev := evaluate_core m st2.store st2.flag Xv yv
        let st3 : LoopSt := { st2 with store := ev.1, flag := ev.2.1 }
        match ev.2.2 with
        | .error err => (st3, calls1, some err)
        | .ok mr =>
          let st4 : LoopSt :=
            if ltBest mr.1 st3.bestVal then
              { st3 with bestVal := some mr.1, noImprove := 0,
                         bestSD := some state_dict }
            else { st3 with noImprove := st3.noImprove + 1 }
          let st5 : LoopSt := { st4 with epochsRun := st4.epochsRun + 1 }
          if patience ≤ st5.noImprove then (st5, calls1, none)
          else trainLoop m run Xv yv patience (e + 1) r st5 calls1

instance : DecidableEq (Except Err ℚ) := fun x y =>
  match x, y with
  | .ok a, .ok b =>
    if h : a = b then .isTrue (by rw [h]) else .isFalse (by simp [h])
  | .error a, .error b =>
    if h : a = b then .isTrue (by rw [h]) else .isFalse (by simp [h])
  | .ok _, .error _ => .isFalse (by simp)
  | .error _, .ok _ => .isFalse (by simp)

/-- Observable outcome of one `train_model` call: the returned parameter
values (or the exception), whether device resolution and the training-tensor
conversion were reached, the optimizer-step counter, the number of epochs
that completed their early-stopping bookkeeping, and the argument pairs
passed to the evaluator. -/
structure TrainOut where
  result : Except Err ℚ
  deviceResolved : Bool
  tensorsConverted : Bool
  optSteps : ℕ
  epochsRun : ℕ
  evalCalls : List (DataFrame × Series)
deriving DecidableEq

/-- `train_model` (trainer.py lines 69-165): validate the training split,
resolve the device, convert the training split to tensors (the rank-2
`unsqueeze` only reshapes and is dropped), build the loader/criterion/
optimizer (abstracted into `run`), run the epoch loop, and finally
`model.load_state_dict(best_model_state)` — a `NameError` if no epoch ever
assigned `best_model_state` — returning `model.state_dict()`'s values. -/
def train_model (m : Model) (run : Run) (Xt : DataFrame) (yt : Series)
    (Xv : DataFrame) (yv : Series) (epochs patience : ℕ) (store0 : Store)
    (flag0 : Bool) : TrainOut :=
  match check_data_types Xt yt with
  | .error e => ⟨.error e, false, false, 0, 0, []⟩
  | .ok _ =>
    match check_for_nan_inf Xt yt with
    | .error e => ⟨.error e, false, false, 0, 0, []⟩
    | .ok _ =>
      match toMatrix Xt with
      | none => ⟨.error .torchTypeError, true, false, 0, 0, []⟩
      | some _ =>
        match toVec yt with
        | none => ⟨.error .torchTypeError, true, false, 0, 0, []⟩
        | some _ =>
          let st0 : LoopSt := ⟨store0, flag0, none, 0, none, 0, 0⟩
          let out := trainLoop m run Xv yv patience 0 epochs st0 []
          match out.2.2 with
          | some e => ⟨.error e, true, true, out.1.steps, out.1.epochsRun, out.2.1⟩
          | none =>
            match out.1.bestSD with
            | none => ⟨.error .undefinedBestState, true, true, out.1.steps,
                       out.1.epochsRun, out.2.1⟩
            | some sd =>
              let store1 := load_state_dict out.1.store sd
              ⟨.ok (getParams store1), true, true, out.1.steps,
               out.1.epochsRun, out.2.1⟩

/-! ### Derived run descriptions used to state the loop properties -/

/-- Parameter content after `e` completed epochs of the run, assuming no
mid-epoch abort (each epoch folds the optimizer update over its batches). -/
def paramsAfter (run : Run) (p0 : ℚ) : ℕ → ℚ
  | 0 => p0
  | e + 1 => (run.batches e).foldl run.stepF (paramsAfter run p0 e)

/-- Every loss along a batch list is finite, starting from parameters `p`
(the condition under which the mini-batch loop completes). -/
def lossesFinite (run : Run) (p : ℚ) : List ℕ → Bool
  | [] => true
  | b :: bs => (run.lossF p b).isFiniteV && lossesFinite run (run.stepF p b) bs

/-- The validation MSE recorded at (0-based) epoch `e` of the run, as the
evaluator computes it from the parameters at the end of that epoch. -/
def valRecorded (m : Model) (run : Run) (p0 : ℚ) (Xv : DataFrame) (yv : Series)
    (e : ℕ) : Except Err (ℚ × ℚ) :=
  evalMetrics m (paramsAfter run p0 (e + 1)) Xv yv

/-- The loop state after one successfully completed epoch (mini-batch fold,
evaluator call with value `v`, early-stopping bookkeeping). -/
def afterEpoch (run : Run) (e : ℕ) (v : ℚ) (st : LoopSt) : LoopSt :=
  { store := setParams st.store ((run.batches e).foldl run.stepF (getParams st.store)),
    flag := false,
    bestVal := if ltBest v st.bestVal then some v else st.bestVal,
    noImprove := if ltBest v st.bestVal then 0 else st.noImprove + 1,
    bestSD := if ltBest v st.bestVal then some state_dict else st.bestSD,
    steps := st.steps + (run.batches e).length,
    epochsRun := st.epochsRun + 1 }

/-- Errors the epoch loop can raise: never a validator error and never the
undefined-best-state error (those arise outside the loop). -/
def loopErr (err : Err) : Prop :=
  err ≠ .dataTypeError ∧ err ≠ .dataIntegrityError ∧ err ≠ .undefinedBestState

/-- The loop state after one completed epoch whose mini-batch loop ended at
parameters `p1` with step counter `s1` and whose evaluator call returned
MSE `v`. -/
def afterEpochAt (p1 : ℚ) (s1 : ℕ) (v : ℚ) (st : LoopSt) : LoopSt :=
  { store := setParams st.store p1,
    flag := false,
    bestVal := if ltBest v st.bestVal then some v else st.bestVal,
    noImprove := if ltBest v st.bestVal then 0 else st.noImprove + 1,
    bestSD := if ltBest v st.bestVal then some state_dict else st.bestSD,
    steps := s1,
    epochsRun := st.epochsRun + 1 }

/-! ### Concrete instances used for counterexamples and witnesses -/

/-- A concrete model: predicts the current parameter value for each row of a
one-row validation set. -/
def exModel : Model := ⟨fun _ p _ => [.num p]⟩

/-- A concrete run: one mini-batch per epoch, always-zero loss, and an
optimizer update that increases the parameter by one each step. -/
def exRun : Run := ⟨fun _ => [0], fun _ _ => .num 0, fun p _ => p + 1⟩

/-- A concrete run whose second mini-batch produces a NaN loss. -/
def exRunBad : Run :=
  ⟨fun _ => [0, 1], fun _ b => if b = 0 then .num 0 else .nan, fun p _ => p + 1⟩

/-- Valid one-column numeric training features. -/
def exXt : DataFrame := ⟨[⟨.float64, [.num 1]⟩]⟩

/-- Valid numeric training target. -/
def exyt : Series := ⟨.float64, [.num 1]⟩

/-- Training target with an injected NaN. -/
def exytNan : Series := ⟨.float64, [.nan]⟩

/-- Valid one-column numeric validation features. -/
def exXv : DataFrame := ⟨[⟨.float64, [.num 0]⟩]⟩

/-- Validation features with an injected NaN. -/
def exXvNan : DataFrame := ⟨[⟨.float64, [.nan]⟩]⟩

/-- Valid numeric validation target. -/
def exyv : Series := ⟨.float64, [.num 0]⟩

/-- Initial tensor store: all parameters zero. -/
def exStore : Store := ⟨fun _ => 0⟩

/-- The validation split is defective: a non-numeric column, or a NaN or
infinite value, in the features or the target. -/
def badValSplit (Xv : DataFrame) (yv : Series) : Bool :=
  Xv.cols.any (fun c => !c.dtype.isNumeric || c.vals.any (fun v => !v.isFiniteV))
    || (!yv.dtype.isNumeric || yv.vals.any (fun v => !v.isFiniteV))


/-! ### Basic lemmas about the embedded operations -/

theorem getParams_setParams (s : Store) (q : ℚ) : getParams (setParams s q) = q := by
  simp [getParams, setParams]

/-- The mini-batch loop completes when every loss along it is finite,
ending at the fold of the optimizer update and having taken one optimizer
step per batch. -/
theorem runBatches_ok_of_finite (run : Run) :
    ∀ (l : List ℕ) (p tl0 : ℚ) (s : ℕ), lossesFinite run p l = true →
      ∃ tl, runBatches run p tl0 s l = .ok (l.foldl run.stepF p, tl, s + l.length) := by
  intro l
  induction l with
  | nil => exact fun p tl0 s _ => ⟨tl0, by simp [runBatches]⟩
  | cons b bs ih =>
    intro p tl0 s h
    simp only [lossesFinite, Bool.and_eq_true] at h
    cases hl : run.lossF p b with
    | num q =>
      obtain ⟨tl, htl⟩ := ih (run.stepF p b) (tl0 + q) (s + 1) h.2
      refine ⟨tl, ?_⟩
      simp only [runBatches, hl, htl, List.foldl_cons, List.length_cons]
      have : s + 1 + bs.length = s + (bs.length + 1) := by omega
      rw [this]
    | nan => rw [hl] at h; simp [PValue.isFiniteV] at h
    | posInf => rw [hl] at h; simp [PValue.isFiniteV] at h
    | negInf => rw [hl] at h; simp [PValue.isFiniteV] at h

/-- If the evaluator's metric computation succeeds on the current parameters,
`evaluate_model`'s side effects are exactly: no store change and the
training-mode flag cleared. -/
theorem evaluate_core_of_metrics (m : Model) (s : Store) (flag : Bool)
    (Xv : DataFrame) (yv : Series) (vr : ℚ × ℚ)
    (hev : evalMetrics m (getParams s) Xv yv = .ok vr) :
    evaluate_core m s flag Xv yv = (s, false, .ok vr) := by
  unfold evaluate_core
  cases hX : toMatrix Xv with
  | none => exfalso; unfold evalMetrics at hev; rw [hX] at hev; simp at hev
  | some mat =>
    cases hY : toVec yv with
    | none => exfalso; unfold evalMetrics at hev; rw [hX, hY] at hev; simp at hev
    | some yvec => simp [hX, hY, hev]

/-- Unfolding equation for one successful epoch of the training loop. -/
theorem trainLoop_step (m : Model) (run : Run) (Xv : DataFrame) (yv : Series)
    (patience e r : ℕ) (st : LoopSt) (calls : List (DataFrame × Series))
    (v r2 : ℚ)
    (hfin : lossesFinite run (getParams st.store) (run.batches e) = true)
    (hne : run.batches e ≠ [])
    (hev : evalMetrics m ((run.batches e).foldl run.stepF (getParams st.store)) Xv yv
            = .ok (v, r2)) :
    trainLoop m run Xv yv patience e (r + 1) st calls =
      if patience ≤ (afterEpoch run e v st).noImprove
      then (afterEpoch run e v st, calls ++ [(Xv, yv)], none)
      else trainLoop m run Xv yv patience (e + 1) r (afterEpoch run e v st)
            (calls ++ [(Xv, yv)]) := by
  obtain ⟨tl, hrb⟩ := runBatches_ok_of_finite run (run.batches e)
      (getParams st.store) 0 st.steps hfin
  have hcore := evaluate_core_of_metrics m
      (setParams st.store ((run.batches e).foldl run.stepF (getParams st.store)))
      true Xv yv (v, r2) (by rw [getParams_setParams]; exact hev)
  simp only [trainLoop, hrb, hcore]
  rw [if_neg (by simpa using hne)]
  cases hlt : ltBest v st.bestVal <;>
    simp [afterEpoch, hlt]

theorem loopErr_sklearn : loopErr .sklearnError := by simp [loopErr]

theorem loopErr_torch : loopErr .torchTypeError := by simp [loopErr]

theorem loopErr_zeroDiv : loopErr .zeroDivision := by simp [loopErr]

theorem loopErr_numInstab (p : ℚ) (n : ℕ) :
    loopErr (.numericalInstability p n) := by simp [loopErr]

theorem mean_squared_error_error_classify (ytrue ypred : List PValue) (err : Err)
    (h : mean_squared_error ytrue ypred = .error err) : loopErr err := by
  unfold mean_squared_error at h
  split at h
  · simp at h
  · simp only [Except.error.injEq] at h
    exact h ▸ loopErr_sklearn

theorem r2_score_error_classify (ytrue ypred : List PValue) (err : Err)
    (h : r2_score ytrue ypred = .error err) : loopErr err := by
  unfold r2_score at h
  split at h
  · simp at h
  · simp only [Except.error.injEq] at h
    exact h ▸ loopErr_sklearn

theorem evalMetrics_error_classify (m : Model) (p : ℚ) (Xv : DataFrame)
    (yv : Series) (err : Err) (h : evalMetrics m p Xv yv = .error err) :
    loopErr err := by
  simp only [evalMetrics] at h
  split at h
  · simp only [Except.error.injEq] at h
    exact h ▸ loopErr_torch
  · split at h
    · simp only [Except.error.injEq] at h
      exact h ▸ loopErr_torch
    · split at h
      · rename_i hmse
        simp only [Except.error.injEq] at h
        exact mean_squared_error_error_classify _ _ _ (h ▸ hmse)
      · split at h
        · rename_i hr2
          simp only [Except.error.injEq] at h
          exact r2_score_error_classify _ _ _ (h ▸ hr2)
        · simp at h

theorem evaluate_core_error_classify (m : Model) (s : Store) (flag : Bool)
    (Xv : DataFrame) (yv : Series) (err : Err)
    (h : (evaluate_core m s flag Xv yv).2.2 = .error err) : loopErr err := by
  simp only [evaluate_core] at h
  split at h
  · simp only [Except.error.injEq] at h
    exact h ▸ loopErr_torch
  · split at h
    · simp only [Except.error.injEq] at h
      exact h ▸ loopErr_torch
    · simp only at h
      exact evalMetrics_error_classify _ _ _ _ _ h

/-- Every exception the epoch loop can end in is a loop exception. -/
theorem trainLoop_err_classify (m : Model) (run : Run) (Xv : DataFrame)
    (yv : Series) (patience : ℕ) :
    ∀ (r e : ℕ) (st : LoopSt) (calls : List (DataFrame × Series)) (err : Err),
      (trainLoop m run Xv yv patience e r st calls).2.2 = some err →
      loopErr err := by
  intro r
  induction r with
  | zero => intro e st calls err h; simp [trainLoop] at h
  | succ r ih =>
    intro e st calls err h
    simp only [trainLoop] at h
    split at h
    · simp only at h
      injection h with h
      exact h ▸ loopErr_numInstab _ _
    · split at h
      · simp only at h
        injection h with h
        exact h ▸ loopErr_zeroDiv
      · split at h
        · rename_i hev
          simp only at h
          injection h with h
          exact evaluate_core_error_classify _ _ _ _ _ _ (h ▸ hev)
        · split at h <;> split at h <;>
            first
              | exact ih _ _ _ _ h
              | simp at h

/-- The evaluator never writes to the tensor store. -/
theorem evaluate_core_store (m : Model) (s : Store) (flag : Bool)
    (Xv : DataFrame) (yv : Series) : (evaluate_core m s flag Xv yv).1 = s := by
  unfold evaluate_core
  split
  · rfl
  · split <;> rfl

/-- When the evaluator returns metrics, `model.eval()` has run: the
training-mode flag is cleared. -/
theorem evaluate_core_flag_of_ok (m : Model) (s : Store) (flag : Bool)
    (Xv : DataFrame) (yv : Series) (mr : ℚ × ℚ)
    (h : (evaluate_core m s flag Xv yv).2.2 = .ok mr) :
    (evaluate_core m s flag Xv yv).2.1 = false := by
  unfold evaluate_core at h ⊢
  split at h
  · simp at h
  · split at h
    · simp at h
    · rfl

/-- Unfolding equation for one epoch of the loop, conditioned on the
mini-batch loop and the evaluator call succeeding. -/
theorem trainLoop_step_rb (m : Model) (run : Run) (Xv : DataFrame)
    (yv : Series) (patience e r : ℕ) (st : LoopSt)
    (calls : List (DataFrame × Series)) (p1 tl : ℚ) (s1 : ℕ) (v r2 : ℚ)
    (hrb : runBatches run (getParams st.store) 0 st.steps (run.batches e)
            = .ok (p1, tl, s1))
    (hne : ¬(run.batches e).length = 0)
    (hres : (evaluate_core m (setParams st.store p1) true Xv yv).2.2
            = .ok (v, r2)) :
    trainLoop m run Xv yv patience e (r + 1) st calls =
      if patience ≤ (afterEpochAt p1 s1 v st).noImprove
      then (afterEpochAt p1 s1 v st, calls ++ [(Xv, yv)], none)
      else trainLoop m run Xv yv patience (e + 1) r (afterEpochAt p1 s1 v st)
            (calls ++ [(Xv, yv)]) := by
  have hstore := evaluate_core_store m (setParams st.store p1) true Xv yv
  have hflag := evaluate_core_flag_of_ok m (setParams st.store p1) true Xv yv
    (v, r2) hres
  simp only [trainLoop, hrb, hstore, hflag, hres]
  rw [if_neg hne]
  cases hlt : ltBest v st.bestVal <;> simp [afterEpochAt, hlt]

/-- The loop only appends to the evaluator-call list. -/
theorem trainLoop_calls_prefix (m : Model) (run : Run) (Xv : DataFrame)
    (yv : Series) (patience : ℕ) :
    ∀ (r e : ℕ) (st : LoopSt) (calls : List (DataFrame × Series)),
      ∃ tail, (trainLoop m run Xv yv patience e r st calls).2.1
                = calls ++ tail := by
  intro r
  induction r with
  | zero => intro e st calls; exact ⟨[], by simp [trainLoop]⟩
  | succ r ih =>
    intro e st calls
    rcases hrb : runBatches run (getParams st.store) 0 st.steps (run.batches e)
      with pe | ⟨p1, tl, s1⟩
    · exact ⟨[], by simp [trainLoop, hrb]⟩
    · by_cases hz : (run.batches e).length = 0
      · exact ⟨[], by simp [trainLoop, hrb, hz]⟩
      · rcases hres : (evaluate_core m (setParams st.store p1) true Xv yv).2.2
          with errv | ⟨v, r2⟩
        · exact ⟨[(Xv, yv)], by simp [trainLoop, hrb, hz, hres]⟩
        · rw [trainLoop_step_rb m run Xv yv patience e r st calls p1 tl s1 v r2
              hrb hz hres]
          by_cases hbrk : patience ≤ (afterEpochAt p1 s1 v st).noImprove
          · rw [if_pos hbrk]
            exact ⟨[(Xv, yv)], rfl⟩
          · rw [if_neg hbrk]
            obtain ⟨tail, htail⟩ :=
              ih (e + 1) (afterEpochAt p1 s1 v st) (calls ++ [(Xv, yv)])
            exact ⟨(Xv, yv) :: tail, by rw [htail]; simp⟩

/-- Once `best_model_state` has been assigned, it stays assigned. -/
theorem trainLoop_bestSD_isSome (m : Model) (run : Run) (Xv : DataFrame)
    (yv : Series) (patience : ℕ) :
    ∀ (r e : ℕ) (st : LoopSt) (calls : List (DataFrame × Series)),
      st.bestSD.isSome = true →
      ((trainLoop m run Xv yv patience e r st calls).1.bestSD).isSome
        = true := by
  intro r
  induction r with
  | zero => intro e st calls h; simpa [trainLoop] using h
  | succ r ih =>
    intro e st calls h
    rcases hrb : runBatches run (getParams st.store) 0 st.steps (run.batches e)
      with pe | ⟨p1, tl, s1⟩
    · simpa [trainLoop, hrb] using h
    · by_cases hz : (run.batches e).length = 0
      · simpa [trainLoop, hrb, hz] using h
      · rcases hres : (evaluate_core m (setParams st.store p1) true Xv yv).2.2
          with errv | ⟨v, r2⟩
        · simpa [trainLoop, hrb, hz, hres] using h
        · rw [trainLoop_step_rb m run Xv yv patience e r st calls p1 tl s1 v r2
              hrb hz hres]
          by_cases hbrk : patience ≤ (afterEpochAt p1 s1 v st).noImprove
          · rw [if_pos hbrk]
            simp only [afterEpochAt]
            split <;> simp_all
          · rw [if_neg hbrk]
            apply ih
            simp only [afterEpochAt]
            split <;> simp_all

/-- On its very first epoch (infinite best-so-far baseline), the loop either
raises or assigns `best_model_state`. -/
theorem trainLoop_first_epoch_bestSD (m : Model) (run : Run) (Xv : DataFrame)
    (yv : Series) (patience : ℕ) (r e : ℕ) (st : LoopSt)
    (calls : List (DataFrame × Series)) (hbv : st.bestVal = none)
    (hok : (trainLoop m run Xv yv patience e (r + 1) st calls).2.2 = none) :
    ((trainLoop m run Xv yv patience e (r + 1) st calls).1.bestSD).isSome
      = true := by
  rcases hrb : runBatches run (getParams st.store) 0 st.steps (run.batches e)
    with pe | ⟨p1, tl, s1⟩
  · rw [trainLoop] at hok
    simp [hrb] at hok
  · by_cases hz : (run.batches e).length = 0
    · rw [trainLoop] at hok
      simp [hrb, hz] at hok
    · rcases hres : (evaluate_core m (setParams st.store p1) true Xv yv).2.2
        with errv | ⟨v, r2⟩
      · rw [trainLoop] at hok
        simp [hrb, hz, hres] at hok
      · rw [trainLoop_step_rb m run Xv yv patience e r st calls p1 tl s1 v r2
            hrb hz hres]
        by_cases hbrk : patience ≤ (afterEpochAt p1 s1 v st).noImprove
        · rw [if_pos hbrk]
          simp [afterEpochAt, ltBest, hbv]
        · rw [if_neg hbrk]
          apply trainLoop_bestSD_isSome
          simp [afterEpochAt, ltBest, hbv]

/-- A run of `k` consecutive epochs none of which improves on the best-seen
validation MSE `v0` increments the no-improvement counter each time and ends
with the patience break, after exactly `k` more completed epochs. -/
theorem trainLoop_noImprove (m : Model) (run : Run) (Xv : DataFrame)
    (yv : Series) (patience : ℕ) (q0 v0 : ℚ) :
    ∀ (k : ℕ), 1 ≤ k →
    ∀ (e r : ℕ) (st : LoopSt) (calls : List (DataFrame × Series)),
      k ≤ r →
      st.bestVal = some v0 →
      st.noImprove + k = patience →
      getParams st.store = paramsAfter run q0 e →
      (∀ i, e ≤ i → i < e + k →
        run.batches i ≠ [] ∧
        lossesFinite run (paramsAfter run q0 i) (run.batches i) = true ∧
        ∃ v r2, evalMetrics m (paramsAfter run q0 (i + 1)) Xv yv = .ok (v, r2)
                  ∧ v0 ≤ v) →
      (trainLoop m run Xv yv patience e r st calls).1.epochsRun
          = st.epochsRun + k
      ∧ (trainLoop m run Xv yv patience e r st calls).2.2 = none := by
  intro k
  induction k with
  | zero => omega
  | succ k ih =>
    intro _ e r st calls hkr hbv hni hpar hcond
    obtain ⟨r', rfl⟩ : ∃ r', r = r' + 1 := ⟨r - 1, by omega⟩
    obtain ⟨hne, hfin, v, r2, hev, hvge⟩ := hcond e (le_refl e) (by omega)
    have hfin' : lossesFinite run (getParams st.store) (run.batches e) = true := by
      rw [hpar]; exact hfin
    have hev' : evalMetrics m
        ((run.batches e).foldl run.stepF (getParams st.store)) Xv yv
          = .ok (v, r2) := by
      rw [hpar]; exact hev
    have hlt : ltBest v st.bestVal = false := by
      rw [hbv]
      simp only [ltBest, decide_eq_false_iff_not]
      exact not_lt.2 hvge
    rw [trainLoop_step m run Xv yv patience e r' st calls v r2 hfin' hne hev']
    rcases Nat.eq_zero_or_pos k with hk0 | hkpos
    · subst hk0
      rw [if_pos (by simp [afterEpoch, hlt]; omega)]
      constructor
      · simp [afterEpoch]
      · rfl
    · rw [if_neg (by simp [afterEpoch, hlt]; omega)]
      have hres := ih hkpos (e + 1) r' (afterEpoch run e v st)
        (calls ++ [(Xv, yv)]) (by omega)
        (by simp [afterEpoch, hlt]; exact hbv)
        (by simp [afterEpoch, hlt]; omega)
        (by simp [afterEpoch, getParams_setParams, hpar, paramsAfter])
        (fun i h1 h2 => hcond i (by omega) (by omega))
      refine ⟨?_, hres.2⟩
      rw [hres.1]
      simp [afterEpoch]
      omega

/-! ### Facts about the validators -/

theorem nan_is_not_finite (v : PValue) (h : v.isNan = true) :
    (!v.isFiniteV) = true := by
  cases v <;> simp_all [PValue.isNan, PValue.isFiniteV]

theorem hasNanInf_of_hasNullX (X : DataFrame) (y : Series)
    (h : X.hasNull = true) : hasNanInfData X y = true := by
  simp only [DataFrame.hasNull, List.any_eq_true] at h
  obtain ⟨c, hc, v, hv, hn⟩ := h
  simp only [hasNanInfData, Bool.or_eq_true, List.any_eq_true]
  exact Or.inl ⟨c, hc, v, hv, nan_is_not_finite v hn⟩

theorem hasNanInf_of_hasNully (X : DataFrame) (y : Series)
    (h : y.hasNull = true) : hasNanInfData X y = true := by
  simp only [Series.hasNull, List.any_eq_true] at h
  obtain ⟨v, hv, hn⟩ := h
  simp only [hasNanInfData, Bool.or_eq_true, List.any_eq_true]
  exact Or.inr ⟨v, hv, nan_is_not_finite v hn⟩

theorem noNanInf_allFinite (X : DataFrame) (y : Series)
    (h : hasNanInfData X y = false) :
    X.hasNull = false ∧ y.hasNull = false
      ∧ X.allFinite = true ∧ y.allFinite = true := by
  simp only [hasNanInfData, Bool.or_eq_false_iff, List.any_eq_false] at h
  have hXfin : X.allFinite = true := by
    simp only [DataFrame.allFinite, List.all_eq_true]
    intro c hc v hv
    have hc' := h.1 c hc
    rw [List.any_eq_true] at hc'
    push_neg at hc'
    have := hc' v hv
    simpa using this
  have hyfin : y.allFinite = true := by
    simp only [Series.allFinite, List.all_eq_true]
    intro v hv
    have := h.2 v hv
    simpa using this
  refine ⟨?_, ?_, hXfin, hyfin⟩
  · rw [Bool.eq_false_iff]
    intro hn
    have := hasNanInf_of_hasNullX X y hn
    simp only [hasNanInfData, Bool.or_eq_true, List.any_eq_true] at this
    rcases this with ⟨c, hc, v, hv, hnf⟩ | ⟨v, hv, hnf⟩
    · have hc' := h.1 c hc
      rw [List.any_eq_true] at hc'
      push_neg at hc'
      exact (hc' v hv) hnf
    · exact (h.2 v hv) hnf
  · rw [Bool.eq_false_iff]
    intro hn
    have := hasNanInf_of_hasNully X y hn
    simp only [hasNanInfData, Bool.or_eq_true, List.any_eq_true] at this
    rcases this with ⟨c, hc, v, hv, hnf⟩ | ⟨v, hv, hnf⟩
    · have hc' := h.1 c hc
      rw [List.any_eq_true] at hc'
      push_neg at hc'
      exact (hc' v hv) hnf
    · exact (h.2 v hv) hnf

/-- `check_for_nan_inf` is equivalent to a single test for any NaN or
infinite value. -/
theorem check_for_nan_inf_characterization (X : DataFrame) (y : Series) :
    check_for_nan_inf X y =
      if hasNanInfData X y then .error .dataIntegrityError else .ok () := by
  unfold check_for_nan_inf
  by_cases h2 : hasNanInfData X y = true
  · rw [if_pos h2]
    by_cases h1 : (X.hasNull || y.hasNull) = true
    · rw [if_pos h1]
    · rw [if_neg h1, if_pos ?_]
      simp only [hasNanInfData, Bool.or_eq_true, List.any_eq_true] at h2
      simp only [Bool.or_eq_true, Bool.not_eq_true', Bool.eq_false_iff, Ne]
      rcases h2 with ⟨c, hc, v, hv, hnf⟩ | ⟨v, hv, hnf⟩
      · left
        intro hall
        simp only [DataFrame.allFinite, List.all_eq_true] at hall
        have := hall c hc v hv
        simp only [Bool.not_eq_true'] at hnf
        rw [hnf] at this
        exact Bool.false_ne_true this
      · right
        intro hall
        simp only [Series.allFinite, List.all_eq_true] at hall
        have := hall v hv
        simp only [Bool.not_eq_true'] at hnf
        rw [hnf] at this
        exact Bool.false_ne_true this
  · rw [if_neg h2]
    rw [Bool.not_eq_true] at h2
    obtain ⟨hXn, hyn, hXf, hyf⟩ := noNanInf_allFinite X y h2
    rw [if_neg (by simp [hXn, hyn]), if_neg (by simp [hXf, hyf])]

/-- C9: the Validator's NaN/infinity check raises `DataIntegrityError` if and
only if the input contains a missing (NaN) or non-finite value in the
features or the target; on any input free of NaN and infinity it raises
nothing. -/
theorem c9_validator_nan_inf_iff (X : DataFrame) (y : Series) :
    (check_for_nan_inf X y = .error .dataIntegrityError
      ↔ hasNanInfData X y = true)
    ∧ (check_for_nan_inf X y = .ok () ↔ hasNanInfData X y = false) := by
  rw [check_for_nan_inf_characterization]
  by_cases h : hasNanInfData X y = true <;> simp [h]

/-- C4 counterexample: a feature column of the non-numeric dtype `category`
(together with a numeric target) passes `check_data_types` without any error,
so the type check does not detect every non-numeric column. -/
theorem c4_nonnumeric_dtype_undetected :
    Dtype.isNumeric .category = false
    ∧ check_data_types ⟨[⟨.category, [.num 1]⟩]⟩ ⟨.float64, [.num 1]⟩
        = .ok () := ⟨rfl, rfl⟩

/-- C4 (amended): the Validator raises `DataTypeError` exactly when some
feature column or the target has dtype `object`; non-numeric columns of any
other dtype (e.g. categorical or datetime) pass the check undetected. -/
theorem c4_object_dtype_check_iff (X : DataFrame) (y : Series) :
    (check_data_types X y = .error .dataTypeError
      ↔ (X.cols.any (fun c => c.dtype.isObject) || y.dtype.isObject) = true)
    ∧ (check_data_types X y = .ok ()
      ↔ (X.cols.any (fun c => c.dtype.isObject) || y.dtype.isObject)
          = false) := by
  unfold check_data_types
  by_cases h1 : X.cols.any (fun c => c.dtype.isObject) = true
  · simp [h1]
  · by_cases h2 : y.dtype.isObject = true
    · simp [h1, h2]
    · simp [h1, h2]

/-! ### The evaluator's contract -/

/-- The evaluator's metric result does not depend on the incoming
training-mode flag: `model.eval()` runs before the forward pass. -/
theorem evaluate_core_res_flag (m : Model) (s : Store) (f f' : Bool)
    (Xv : DataFrame) (yv : Series) :
    (evaluate_core m s f Xv yv).2.2 = (evaluate_core m s f' Xv yv).2.2 := by
  unfold evaluate_core
  cases toMatrix Xv with
  | none => rfl
  | some mat =>
    cases toVec yv with
    | none => rfl
    | some yvec => rfl

/-- C7: the Evaluator is idempotent: calling `evaluate_model` twice in
succession (the second call starting from the state the first call left
behind) returns the identical (MSE, RMSE, R²) result both times, and neither
call changes any of the model's trainable parameter values. -/
theorem c7_evaluator_idempotent (m : Model) (s : Store) (flag : Bool)
    (Xv : DataFrame) (yv : Series) :
    (evaluate_model m s flag Xv yv).1 = s
    ∧ (evaluate_model m ((evaluate_model m s flag Xv yv).1)
        ((evaluate_model m s flag Xv yv).2.1) Xv yv).1 = s
    ∧ (evaluate_model m ((evaluate_model m s flag Xv yv).1)
        ((evaluate_model m s flag Xv yv).2.1) Xv yv).2.2
      = (evaluate_model m s flag Xv yv).2.2 := by
  refine ⟨?_, ?_, ?_⟩
  · simp only [evaluate_model]
    exact evaluate_core_store m s flag Xv yv
  · simp only [evaluate_model]
    rw [evaluate_core_store, evaluate_core_store]
  · simp only [evaluate_model]
    rw [evaluate_core_store]
    rw [evaluate_core_res_flag m s
      ((evaluate_core m s flag Xv yv).2.1) flag Xv yv]

/-- C8: the RMSE component returned by the Evaluator equals the square root
of the MSE component returned by the same call (both are 0 when the call
raises, and `√0 = 0`). -/
theorem c8_rmse_sqrt_mse (m : Model) (s : Store) (flag : Bool)
    (Xv : DataFrame) (yv : Series) :
    rmseOf (evaluate_model m s flag Xv yv).2.2
      = Real.sqrt ((mseOf (evaluate_model m s flag Xv yv).2.2 : ℚ) : ℝ) := by
  simp only [evaluate_model]
  cases h : (evaluate_core m s flag Xv yv).2.2 with
  | ok t => simp [rmseOf, mseOf, Except.map, h]
  | error e => simp [rmseOf, mseOf, Except.map, h]

/-! ### Shape of the validation phase of train_model -/

theorem check_data_types_error_shape (X : DataFrame) (y : Series) (e : Err)
    (h : check_data_types X y = .error e) : e = .dataTypeError := by
  unfold check_data_types at h
  split at h <;> [skip; split at h] <;> simp_all

theorem check_for_nan_inf_error_shape (X : DataFrame) (y : Series) (e : Err)
    (h : check_for_nan_inf X y = .error e) : e = .dataIntegrityError := by
  unfold check_for_nan_inf at h
  split at h <;> [skip; split at h] <;> simp_all

theorem isNumeric_not_isObject (d : Dtype) (h : d.isNumeric = true) :
    d.isObject = false := by
  cases d <;> simp_all [Dtype.isNumeric, Dtype.isObject]

/-- `train_model` after a successful validation phase is the loop followed by
the best-state restore. -/
theorem train_model_unfold (m : Model) (run : Run) (Xt : DataFrame)
    (yt : Series) (Xv : DataFrame) (yv : Series) (epochs patience : ℕ)
    (store0 : Store) (flag0 : Bool) (mat : FMat) (yvec : List PValue)
    (h1 : check_data_types Xt yt = .ok ())
    (h2 : check_for_nan_inf Xt yt = .ok ())
    (h3 : toMatrix Xt = some mat) (h4 : toVec yt = some yvec) :
    train_model m run Xt yt Xv yv epochs patience store0 flag0 =
      match (trainLoop m run Xv yv patience 0 epochs
              ⟨store0, flag0, none, 0, none, 0, 0⟩ []) with
      | (st, calls, some e) => ⟨.error e, true, true, st.steps, st.epochsRun, calls⟩
      | (st, calls, none) =>
        match st.bestSD with
        | none => ⟨.error .undefinedBestState, true, true, st.steps,
                   st.epochsRun, calls⟩
        | some sd => ⟨.ok (getParams (load_state_dict st.store sd)), true, true,
                      st.steps, st.epochsRun, calls⟩ := by
  simp only [train_model, h1, h2, h3, h4]
  rcases trainLoop m run Xv yv patience 0 epochs
    ⟨store0, flag0, none, 0, none, 0, 0⟩ [] with ⟨st, calls, err⟩
  cases err <;> rfl

/-! ### Claims about the training pipeline -/

/-- C5: for every training input with numeric dtypes (the spec's data model)
whose target column contains a NaN or an infinite value, `train_model` raises
`DataIntegrityError` in the up-front validation phase: before device
resolution, before tensor conversion, and before any optimizer step (the
step counter stays 0). -/
theorem c5_nan_target_aborts_pre_training (m : Model) (run : Run)
    (Xt : DataFrame) (yt : Series) (Xv : DataFrame) (yv : Series)
    (epochs patience : ℕ) (store0 : Store) (flag0 : Bool)
    (hX : Xt.cols.all (fun c => c.dtype.isNumeric) = true)
    (hy : yt.dtype.isNumeric = true)
    (hbad : yt.vals.any (fun v => !v.isFiniteV) = true) :
    (train_model m run Xt yt Xv yv epochs patience store0 flag0).result
        = .error .dataIntegrityError
    ∧ (train_model m run Xt yt Xv yv epochs patience store0 flag0).deviceResolved
        = false
    ∧ (train_model m run Xt yt Xv yv epochs patience store0 flag0).tensorsConverted
        = false
    ∧ (train_model m run Xt yt Xv yv epochs patience store0 flag0).optSteps
        = 0 := by
  have htc : check_data_types Xt yt = .ok () := by
    unfold check_data_types
    rw [if_neg, if_neg]
    · rw [isNumeric_not_isObject yt.dtype hy]
      simp
    · simp only [List.all_eq_true] at hX
      simp only [Bool.not_eq_true, List.any_eq_false]
      intro c hc
      exact isNumeric_not_isObject c.dtype (hX c hc)
  have hni : check_for_nan_inf Xt yt = .error .dataIntegrityError := by
    rw [check_for_nan_inf_characterization, if_pos]
    simp only [hasNanInfData, Bool.or_eq_true]
    exact Or.inr hbad
  simp [train_model, htc, hni]

/-- C5 witness: a NaN injected into an otherwise valid numeric target. -/
theorem c5_witness :
    (train_model exModel exRun exXt exytNan exXv exyv 100 10 exStore false).result
        = .error .dataIntegrityError
    ∧ (train_model exModel exRun exXt exytNan exXv exyv 100 10 exStore
        false).optSteps = 0 := by
  have h := c5_nan_target_aborts_pre_training exModel exRun exXt exytNan exXv
    exyv 100 10 exStore false (by decide) (by decide) (by decide)
  exact ⟨h.1, h.2.2.2⟩

/-- C2: for every run with at least one epoch, the final restore step never
fails for lack of a best-state snapshot (the first epoch's validation MSE
always improves on the initial infinite baseline, so `best_model_state` is
assigned whenever the restore is reached); with `epochs = 0` and inputs that
pass validation and conversion, no snapshot is ever created and `train_model`
fails with the undefined-best-state error. -/
theorem c2_best_state_defined (m : Model) (run : Run) (Xt : DataFrame)
    (yt : Series) (Xv : DataFrame) (yv : Series) (epochs patience : ℕ)
    (store0 : Store) (flag0 : Bool) :
    (1 ≤ epochs →
      (train_model m run Xt yt Xv yv epochs patience store0 flag0).result
        ≠ .error .undefinedBestState)
    ∧ (check_data_types Xt yt = .ok () → check_for_nan_inf Xt yt = .ok () →
       (toMatrix Xt).isSome = true → (toVec yt).isSome = true →
       (train_model m run Xt yt Xv yv 0 patience store0 flag0).result
         = .error .undefinedBestState) := by
  constructor
  · intro hep
    obtain ⟨r, rfl⟩ : ∃ r, epochs = r + 1 := ⟨epochs - 1, by omega⟩
    rcases h1 : check_data_types Xt yt with e | u
    · have := check_data_types_error_shape _ _ _ h1
      subst this
      simp [train_model, h1]
    · cases u
      rcases h2 : check_for_nan_inf Xt yt with e | u
      · have := check_for_nan_inf_error_shape _ _ _ h2
        subst this
        simp [train_model, h1, h2]
      · cases u
        rcases h3 : toMatrix Xt with _ | mat
        · simp [train_model, h1, h2, h3]
        · rcases h4 : toVec yt with _ | yvec
          · simp [train_model, h1, h2, h3, h4]
          · rw [train_model_unfold m run Xt yt Xv yv (r + 1) patience store0
                flag0 mat yvec h1 h2 h3 h4]
            rcases hout : trainLoop m run Xv yv patience 0 (r + 1)
                ⟨store0, flag0, none, 0, none, 0, 0⟩ [] with ⟨st, calls, err⟩
            cases err with
            | some e =>
              have hle := trainLoop_err_classify m run Xv yv patience (r + 1) 0
                ⟨store0, flag0, none, 0, none, 0, 0⟩ [] e (by rw [hout])
              simpa using hle.2.2
            | none =>
              have hsd := trainLoop_first_epoch_bestSD m run Xv yv patience r 0
                ⟨store0, flag0, none, 0, none, 0, 0⟩ [] rfl (by rw [hout])
              rw [hout] at hsd
              rcases hsd' : st.bestSD with _ | sd
              · rw [hsd'] at hsd
                simp at hsd
              · simp [hsd']
  · intro h1 h2 h3 h4
    obtain ⟨mat, h3'⟩ := Option.isSome_iff_exists.1 h3
    obtain ⟨yvec, h4'⟩ := Option.isSome_iff_exists.1 h4
    rw [train_model_unfold m run Xt yt Xv yv 0 patience store0 flag0 mat yvec
        h1 h2 h3' h4']
    simp [trainLoop]

/-- C2 witness: with one epoch the restore finds a snapshot; with zero epochs
the same valid inputs end in the undefined-best-state error. -/
theorem c2_witness :
    (train_model exModel exRun exXt exyt exXv exyv 1 10 exStore false).result
        ≠ .error .undefinedBestState
    ∧ (train_model exModel exRun exXt exyt exXv exyv 0 10 exStore false).result
        = .error .undefinedBestState := by
  have h := c2_best_state_defined exModel exRun exXt exyt exXv exyv 1 10
    exStore false
  exact ⟨h.1 (by omega), h.2 rfl rfl rfl rfl⟩

/-- The mini-batch loop raises `NumericalInstabilityError` at the first batch
whose loss is not finite: every earlier batch has applied its optimizer step,
the failing batch applies none (parameters and step counter are those of the
preceding batches), and the batches after it are never reached (the result
does not depend on them). -/
theorem runBatches_instability (run : Run) :
    ∀ (pre : List ℕ) (p tl : ℚ) (s : ℕ) (b : ℕ) (post : List ℕ),
      lossesFinite run p pre = true →
      (run.lossF (pre.foldl run.stepF p) b).isFiniteV = false →
      runBatches run p tl s (pre ++ b :: post)
        = .error (pre.foldl run.stepF p, s + pre.length) := by
  intro pre
  induction pre with
  | nil =>
    intro p tl s b post _ hb
    simp only [List.foldl_nil] at hb
    cases hl : run.lossF p b with
    | num q => rw [hl] at hb; simp [PValue.isFiniteV] at hb
    | nan => simp [runBatches, hl]
    | posInf => simp [runBatches, hl]
    | negInf => simp [runBatches, hl]
  | cons a pre ih =>
    intro p tl s b post hfin hb
    simp only [lossesFinite, Bool.and_eq_true] at hfin
    cases hl : run.lossF p a with
    | num q =>
      simp only [List.cons_append, runBatches, hl, List.append_eq]
      rw [ih (run.stepF p a) (tl + q) (s + 1) b post hfin.2
          (by simpa using hb)]
      simp only [List.foldl_cons, List.length_cons]
      have : s + 1 + pre.length = s + (pre.length + 1) := by omega
      rw [this]
    | nan => rw [hl] at hfin; simp [PValue.isFiniteV] at hfin
    | posInf => rw [hl] at hfin; simp [PValue.isFiniteV] at hfin
    | negInf => rw [hl] at hfin; simp [PValue.isFiniteV] at hfin

/-- C6: a mini-batch whose computed loss is NaN or infinite makes the batch
loop raise `NumericalInstabilityError` immediately — no backpropagation or
optimizer step is applied for that batch, the training state is exactly the
state left by the preceding batches, the following batches are never touched
— and when this happens in the first epoch, `train_model` aborts with that
error (no retry: its step counter equals the number of completed batches). -/
theorem c6_unstable_loss_aborts (run : Run) (pre : List ℕ) (b : ℕ)
    (post : List ℕ) (p tl : ℚ) (s : ℕ)
    (hpre : lossesFinite run p pre = true)
    (hb : (run.lossF (pre.foldl run.stepF p) b).isFiniteV = false) :
    runBatches run p tl s (pre ++ b :: post)
      = .error (pre.foldl run.stepF p, s + pre.length)
    ∧ ∀ (m : Model) (Xt : DataFrame) (yt : Series) (Xv : DataFrame)
        (yv : Series) (epochs patience : ℕ) (store0 : Store) (flag0 : Bool)
        (mat : FMat) (yvec : List PValue),
        check_data_types Xt yt = .ok () → check_for_nan_inf Xt yt = .ok () →
        toMatrix Xt = some mat → toVec yt = some yvec →
        1 ≤ epochs → getParams store0 = p →
        run.batches 0 = pre ++ b :: post →
        (train_model m run Xt yt Xv yv epochs patience store0 flag0).result
            = .error (.numericalInstability (pre.foldl run.stepF p) pre.length)
        ∧ (train_model m run Xt yt Xv yv epochs patience store0 flag0).optSteps
            = pre.length := by
  refine ⟨runBatches_instability run pre p tl s b post hpre hb, ?_⟩
  intro m Xt yt Xv yv epochs patience store0 flag0 mat yvec h1 h2 h3 h4 hep
    hp0 hb0
  obtain ⟨r, rfl⟩ : ∃ r, epochs = r + 1 := ⟨epochs - 1, by omega⟩
  rw [train_model_unfold m run Xt yt Xv yv (r + 1) patience store0 flag0 mat
      yvec h1 h2 h3 h4]
  have hrb : runBatches run (getParams store0) 0 0 (run.batches 0)
      = .error (pre.foldl run.stepF p, 0 + pre.length) := by
    rw [hb0, hp0]
    exact runBatches_instability run pre p 0 0 b post hpre hb
  simp only [trainLoop, hrb]
  simp

/-- C6 witness: a two-batch epoch whose second loss is NaN: the first batch's
step is applied, the failing batch applies none, and the run aborts. -/
theorem c6_witness :
    runBatches exRunBad 0 0 0 [0, 1]
        = .error (List.foldl exRunBad.stepF 0 [0], 1)
    ∧ (train_model exModel exRunBad exXt exyt exXv exyv 1 10 exStore
        false).result
        = .error (.numericalInstability (List.foldl exRunBad.stepF 0 [0]) 1)
    ∧ (train_model exModel exRunBad exXt exyt exXv exyv 1 10 exStore
        false).optSteps = 1 := by
  have h := c6_unstable_loss_aborts exRunBad [0] 1 [] 0 0 0 (by decide)
    (by decide)
  have h2 := h.2 exModel exXt exyt exXv exyv 1 10 exStore false
    [[PValue.num 1]] [PValue.num 1] rfl rfl rfl rfl (le_refl 1) rfl rfl
  exact ⟨h.1, h2.1, h2.2⟩

/-- The evaluator-call list reported by `train_model` is the loop's list. -/
theorem train_model_evalCalls (m : Model) (run : Run) (Xt : DataFrame)
    (yt : Series) (Xv : DataFrame) (yv : Series) (epochs patience : ℕ)
    (store0 : Store) (flag0 : Bool) (mat : FMat) (yvec : List PValue)
    (h1 : check_data_types Xt yt = .ok ())
    (h2 : check_for_nan_inf Xt yt = .ok ())
    (h3 : toMatrix Xt = some mat) (h4 : toVec yt = some yvec) :
    (train_model m run Xt yt Xv yv epochs patience store0 flag0).evalCalls
      = (trainLoop m run Xv yv patience 0 epochs
          ⟨store0, flag0, none, 0, none, 0, 0⟩ []).2.1 := by
  rw [train_model_unfold m run Xt yt Xv yv epochs patience store0 flag0 mat
      yvec h1 h2 h3 h4]
  rcases trainLoop m run Xv yv patience 0 epochs
    ⟨store0, flag0, none, 0, none, 0, 0⟩ [] with ⟨st, calls, err⟩
  cases err with
  | some e => rfl
  | none =>
    dsimp only
    cases st.bestSD <;> rfl

/-- C10: `train_model` validates only the training split.  With a training
split that passes validation, no `DataTypeError` or `DataIntegrityError` is
ever raised, however defective the validation split (non-numeric columns,
NaN, or infinite values); and once training begins, the first per-epoch
evaluator call receives the raw validation split unchanged and unchecked. -/
theorem c10_val_split_unchecked (m : Model) (run : Run) (Xt : DataFrame)
    (yt : Series) (Xv : DataFrame) (yv : Series) (epochs patience : ℕ)
    (store0 : Store) (flag0 : Bool)
    (h1 : check_data_types Xt yt = .ok ())
    (h2 : check_for_nan_inf Xt yt = .ok ())
    (hbad : badValSplit Xv yv = true) :
    (train_model m run Xt yt Xv yv epochs patience store0 flag0).result
        ≠ .error .dataTypeError
    ∧ (train_model m run Xt yt Xv yv epochs patience store0 flag0).result
        ≠ .error .dataIntegrityError
    ∧ (∀ (mat : FMat) (yvec : List PValue), toMatrix Xt = some mat →
        toVec yt = some yvec → 1 ≤ epochs →
        ¬(run.batches 0).length = 0 →
        lossesFinite run (getParams store0) (run.batches 0) = true →
        (train_model m run Xt yt Xv yv epochs patience store0
          flag0).evalCalls.head? = some (Xv, yv)) := by
  have hmain : (train_model m run Xt yt Xv yv epochs patience store0
      flag0).result ≠ .error .dataTypeError
      ∧ (train_model m run Xt yt Xv yv epochs patience store0 flag0).result
        ≠ .error .dataIntegrityError := by
    rcases h3 : toMatrix Xt with _ | mat
    · constructor <;> simp [train_model, h1, h2, h3]
    · rcases h4 : toVec yt with _ | yvec
      · constructor <;> simp [train_model, h1, h2, h3, h4]
      · rw [train_model_unfold m run Xt yt Xv yv epochs patience store0 flag0
            mat yvec h1 h2 h3 h4]
        rcases hout : trainLoop m run Xv yv patience 0 epochs
          ⟨store0, flag0, none, 0, none, 0, 0⟩ [] with ⟨st, calls, err⟩
        cases err with
        | some e =>
          have hle := trainLoop_err_classify m run Xv yv patience epochs 0
            ⟨store0, flag0, none, 0, none, 0, 0⟩ [] e (by rw [hout])
          constructor <;> simp only [] <;> intro hcon <;>
            [exact hle.1 (by simpa using hcon);
             exact hle.2.1 (by simpa using hcon)]
        | none =>
          dsimp only
          cases st.bestSD <;> exact ⟨by simp, by simp⟩
  refine ⟨hmain.1, hmain.2, ?_⟩
  intro mat yvec h3 h4 hep hne hfin
  obtain ⟨r, rfl⟩ : ∃ r, epochs = r + 1 := ⟨epochs - 1, by omega⟩
  rw [train_model_evalCalls m run Xt yt Xv yv (r + 1) patience store0 flag0
      mat yvec h1 h2 h3 h4]
  obtain ⟨tl, hrb⟩ := runBatches_ok_of_finite run (run.batches 0)
    (getParams store0) 0 0 hfin
  rcases hres : (evaluate_core m
      (setParams store0 ((run.batches 0).foldl run.stepF (getParams store0)))
      true Xv yv).2.2 with errv | ⟨v, r2⟩
  · simp only [trainLoop, hrb, hres]
    rw [if_neg hne]
    rfl
  · rw [trainLoop_step_rb m run Xv yv patience 0 r
        ⟨store0, flag0, none, 0, none, 0, 0⟩ []
        ((run.batches 0).foldl run.stepF (getParams store0)) tl
        (0 + (run.batches 0).length) v r2 hrb hne hres]
    by_cases hbrk : patience ≤ (afterEpochAt
        ((run.batches 0).foldl run.stepF (getParams store0))
        (0 + (run.batches 0).length) v
        ⟨store0, flag0, none, 0, none, 0, 0⟩).noImprove
    · rw [if_pos hbrk]
      rfl
    · rw [if_neg hbrk]
      obtain ⟨tail, htail⟩ := trainLoop_calls_prefix m run Xv yv patience r 1
        (afterEpochAt ((run.batches 0).foldl run.stepF (getParams store0))
          (0 + (run.batches 0).length) v ⟨store0, flag0, none, 0, none, 0, 0⟩)
        ([] ++ [(Xv, yv)])
      rw [htail]
      rfl

/-- C10 witness: a NaN in the validation features is not caught by the
validators and reaches the evaluator call unchanged. -/
theorem c10_witness :
    (train_model exModel exRun exXt exyt exXvNan exyv 2 10 exStore
        false).result ≠ .error .dataTypeError
    ∧ (train_model exModel exRun exXt exyt exXvNan exyv 2 10 exStore
        false).result ≠ .error .dataIntegrityError
    ∧ (train_model exModel exRun exXt exyt exXvNan exyv 2 10 exStore
        false).evalCalls.head? = some (exXvNan, exyv) := by
  have h := c10_val_split_unchecked exModel exRun exXt exyt exXvNan exyv 2 10
    exStore false rfl rfl (by decide)
  exact ⟨h.1, h.2.1, h.2.2 [[PValue.num 1]] [PValue.num 1] rfl rfl (by omega)
    (by decide) (by decide)⟩

/-- The completed-epoch count reported by `train_model` is the loop's. -/
theorem train_model_epochsRun (m : Model) (run : Run) (Xt : DataFrame)
    (yt : Series) (Xv : DataFrame) (yv : Series) (epochs patience : ℕ)
    (store0 : Store) (flag0 : Bool) (mat : FMat) (yvec : List PValue)
    (h1 : check_data_types Xt yt = .ok ())
    (h2 : check_for_nan_inf Xt yt = .ok ())
    (h3 : toMatrix Xt = some mat) (h4 : toVec yt = some yvec) :
    (train_model m run Xt yt Xv yv epochs patience store0 flag0).epochsRun
      = (trainLoop m run Xv yv patience 0 epochs
          ⟨store0, flag0, none, 0, none, 0, 0⟩ []).1.epochsRun := by
  rw [train_model_unfold m run Xt yt Xv yv epochs patience store0 flag0 mat
      yvec h1 h2 h3 h4]
  rcases trainLoop m run Xv yv patience 0 epochs
    ⟨store0, flag0, none, 0, none, 0, 0⟩ [] with ⟨st, calls, err⟩
  cases err with
  | some e => rfl
  | none =>
    dsimp only
    cases st.bestSD <;> rfl

/-- C3: when the first epoch's validation MSE is the best of the run and each
of the next `patience` epochs fails to strictly improve on it, the training
loop stops after exactly `1 + patience` completed epochs (provided
`1 + patience ≤ epochs`). -/
theorem c3_early_stop_after_patience (m : Model) (run : Run) (Xt : DataFrame)
    (yt : Series) (Xv : DataFrame) (yv : Series) (epochs patience : ℕ)
    (store0 : Store) (flag0 : Bool) (mat : FMat) (yvec : List PValue)
    (v0 : ℚ)
    (h1 : check_data_types Xt yt = .ok ())
    (h2 : check_for_nan_inf Xt yt = .ok ())
    (h3 : toMatrix Xt = some mat) (h4 : toVec yt = some yvec)
    (hE : 1 + patience ≤ epochs)
    (hne : ∀ e, e ≤ patience → run.batches e ≠ [])
    (hfin : ∀ e, e ≤ patience →
      lossesFinite run (paramsAfter run (getParams store0) e) (run.batches e)
        = true)
    (hv0 : ∃ r2, valRecorded m run (getParams store0) Xv yv 0 = .ok (v0, r2))
    (hrest : ∀ e, 1 ≤ e → e ≤ patience →
      ∃ v r2, valRecorded m run (getParams store0) Xv yv e = .ok (v, r2)
        ∧ v0 ≤ v) :
    (train_model m run Xt yt Xv yv epochs patience store0 flag0).epochsRun
      = 1 + patience := by
  obtain ⟨r, rfl⟩ : ∃ r, epochs = r + 1 := ⟨epochs - 1, by omega⟩
  have hpr : patience ≤ r := by omega
  rw [train_model_epochsRun m run Xt yt Xv yv (r + 1) patience store0 flag0
      mat yvec h1 h2 h3 h4]
  obtain ⟨r2, hv0⟩ := hv0
  have hfin0 : lossesFinite run
      (getParams (⟨store0, flag0, none, 0, none, 0, 0⟩ : LoopSt).store)
      (run.batches 0) = true := hfin 0 (by omega)
  have hne0 : run.batches 0 ≠ [] := hne 0 (by omega)
  have hev0 : evalMetrics m ((run.batches 0).foldl run.stepF
      (getParams (⟨store0, flag0, none, 0, none, 0, 0⟩ : LoopSt).store)) Xv yv
        = .ok (v0, r2) := by
    simpa [valRecorded, paramsAfter] using hv0
  rw [trainLoop_step m run Xv yv patience 0 r
      ⟨store0, flag0, none, 0, none, 0, 0⟩ [] v0 r2 hfin0 hne0 hev0]
  have hlt0 : ltBest v0 (⟨store0, flag0, none, 0, none, 0, 0⟩ : LoopSt).bestVal
      = true := by simp [ltBest]
  rcases Nat.eq_zero_or_pos patience with hp0 | hppos
  · subst hp0
    rw [if_pos (by simp [afterEpoch, hlt0])]
    simp [afterEpoch]
  · rw [if_neg (by simp [afterEpoch, hlt0]; omega)]
    have hmain := trainLoop_noImprove m run Xv yv patience
      (getParams store0) v0 patience hppos 1 r
      (afterEpoch run 0 v0 ⟨store0, flag0, none, 0, none, 0, 0⟩)
      ([] ++ [(Xv, yv)]) hpr
      (by simp [afterEpoch, hlt0])
      (by simp [afterEpoch, hlt0])
      (by simp [afterEpoch, getParams_setParams, paramsAfter])
      ?_
    · rw [hmain.1]
      simp [afterEpoch]
    · intro i h1i hilt
      refine ⟨hne i (by omega), hfin i (by omega), ?_⟩
      obtain ⟨v, r2', hvr, hge⟩ := hrest i (by omega) (by omega)
      exact ⟨v, r2', by simpa [valRecorded] using hvr, hge⟩

/-- C3 witness: `patience = 1`, `epochs = 2`, validation MSE 1 then 4: the
loop stops after exactly 2 completed epochs. -/
theorem c3_witness :
    (train_model exModel exRun exXt exyt exXv exyv 2 1 exStore false).epochsRun
      = 2 := by
  have h := c3_early_stop_after_patience exModel exRun exXt exyt exXv exyv 2 1
    exStore false [[PValue.num 1]] [PValue.num 1] 1 rfl rfl rfl rfl (by omega)
    (fun e _ => by simp [exRun])
    (fun e _ => by simp [exRun, lossesFinite, PValue.isFiniteV])
    ⟨0, by norm_num [valRecorded, paramsAfter, evalMetrics, exModel, exRun,
      exXv, exyv, exStore, getParams, toMatrix, toVec, mean_squared_error,
      r2_score, sklearnArraysOk, toRats, Dtype.isNumeric, PValue.isFiniteV]⟩
    ?_
  · exact h
  · intro e h1e he1
    have he : e = 1 := by omega
    subst he
    refine ⟨4, 0, ?_, by norm_num⟩
    norm_num [valRecorded, paramsAfter, evalMetrics, exModel, exRun, exXv,
      exyv, exStore, getParams, toMatrix, toVec, mean_squared_error, r2_score,
      sklearnArraysOk, toRats, Dtype.isNumeric, PValue.isFiniteV]

/-- C1 (exhibiting the best-state defect): a concrete two-epoch run whose
recorded validation MSEs are 1 (first epoch) then 4 (second epoch).  The
lowest recorded val-MSE is the first epoch's, and the parameter value at the
end of that epoch is 1; yet `train_model` returns parameter value 2 — the
value of the *last* executed epoch — because
`best_model_state = model.state_dict()` holds references to the live
parameter tensors, which the second epoch's optimizer step mutates, so the
final `load_state_dict` restore is a no-op. -/
theorem c1_returns_last_epoch_params :
    (train_model exModel exRun exXt exyt exXv exyv 2 10 exStore false).result
        = .ok 2
    ∧ valRecorded exModel exRun (getParams exStore) exXv exyv 0 = .ok (1, 0)
    ∧ valRecorded exModel exRun (getParams exStore) exXv exyv 1 = .ok (4, 0)
    ∧ (1 : ℚ) < 4
    ∧ paramsAfter exRun (getParams exStore) 1 = 1
    ∧ paramsAfter exRun (getParams exStore) 2 = 2
    ∧ (2 : ℚ) ≠ 1 := by
  refine ⟨?_, ?_, ?_, by norm_num, ?_, ?_, by norm_num⟩ <;>
    norm_num [train_model, check_data_types, check_for_nan_inf, toMatrix,
      toVec, trainLoop, runBatches, evaluate_core, evalMetrics,
      mean_squared_error, r2_score, sklearnArraysOk, toRats, ltBest,
      state_dict, load_state_dict, setParams, getParams, paramAddr,
      DataFrame.hasNull, Series.hasNull, DataFrame.allFinite,
      Series.allFinite, PValue.isNan, PValue.isFiniteV, Dtype.isObject,
      Dtype.isNumeric, valRecorded, paramsAfter, exModel, exRun, exXt, exyt,
      exXv, exyv, exStore]
